import Mathlib

/-!
A verification development for the MCP sqlite demo repository.

The repository consists of two Python processes:
* `src/server.py` — the Tool Host: three MCP tools (`add_data`, `read_data`,
  `create_table`) executing raw SQL against a sqlite store;
* `src/langchain_client.py` — the Reasoning Client: a langchain ReAct agent
  dispatching those tools, with a reachability probe, per-tool wrappers, a
  conversation history and an interactive loop.

The embedding below translates the repository's own control flow faithfully.
External collaborators (the sqlite engine, the httpx transport, the langchain
agent runtime) are modelled abstractly: their outcomes are passed in as
explicit parameters, and where their behaviour decides a claim it is stated
as a hypothesis (or, for the agent runtime's loop, modelled from the spec).
Python exceptions are made explicit with a `PyResult` type: a Python
expression either produces a value or raises an exception.
-/

namespace MCP

/-- A Python exception, as relevant to this code base: `sqlite3.Error`
(the only exception class the Tool Host catches), `httpx.ReadTimeout`
(caught specially by the reachability probe), or any other exception. -/
inductive PyExn where
  | sqliteError (msg : String)
  | httpxReadTimeout
  | other (msg : String)
deriving DecidableEq, Repr

/-- `str(e)` for a modelled exception. -/
def PyExn.message : PyExn → String
  | .sqliteError m => m
  | .httpxReadTimeout => "ReadTimeout"
  | .other m => m

/-- Outcome of evaluating a Python expression: a value, or a raised
exception propagating to the caller. -/
inductive PyResult (α : Type) where
  | val (a : α)
  | exn (e : PyExn)
deriving DecidableEq, Repr

/-- Did the evaluation produce a value (no exception)? -/
def PyResult.ok {α : Type} : PyResult α → Bool
  | .val _ => true
  | .exn _ => false

/-- The sqlite3 API contract: every failure of `cursor.execute` /
`conn.commit` is raised as a `sqlite3.Error`.  An outcome respects that
contract when it is a value or a `sqliteError`. -/
def PyResult.sqliteOnly {α : Type} : PyResult α → Bool
  | .val _ => true
  | .exn (.sqliteError _) => true
  | .exn _ => false

/-- A SQL value as it appears in a fetched row (the demo schema holds
integers and text). -/
inductive PyVal where
  | intV (n : Int)
  | strV (s : String)
deriving DecidableEq, Repr

/-- Python `str` on a modelled SQL value. -/
def PyVal.toStr : PyVal → String
  | .intV n => toString n
  | .strV s => s

/-- A row-tuple returned by `cursor.fetchall()`. -/
abbrev Row := List PyVal

/-! ## Tool Host (`src/server.py`)

Each tool opens a fresh connection, runs the statement inside
`try/except sqlite3.Error/finally`, and never lets a `sqlite3.Error`
escape.  The sqlite engine itself is external: its outcome for the
`cursor.execute(query)` call (and the following `conn.commit()` or
`cursor.fetchall()`) is passed in as a `PyResult` parameter. -/

/-- `add_data(query)` (src/server.py, lines 21–65): `cursor.execute(query)`
then `conn.commit()` then `return True`; `except sqlite3.Error: return False`.
`execRes` and `commitRes` are the outcomes of the two engine calls. -/
def add_data (execRes : PyResult Unit) (commitRes : PyResult Unit) : PyResult Bool :=
  match execRes with
  | .val _ =>
      match commitRes with
      | .val _ => .val true
      | .exn (.sqliteError _) => .val false
      | .exn e => .exn e
  | .exn (.sqliteError _) => .val false
  | .exn e => .exn e

/-- The default query of `read_data` (src/server.py, line 68). -/
def read_data_default_query : String := "SELECT * FROM people"

/-- The default query of `create_table` (src/server.py, line 111). -/
def create_table_default_query : String :=
  "Create table New_table (ID int, new_column varchar(255))"

/-- `read_data(query)` (src/server.py, lines 67–108): `cursor.execute(query)`
then `return cursor.fetchall()`; `except sqlite3.Error: return []`.
`fetchRes` is the combined outcome of execute-and-fetch. -/
def read_data (fetchRes : PyResult (List Row)) : PyResult (List Row) :=
  match fetchRes with
  | .val rows => .val rows
  | .exn (.sqliteError _) => .val []
  | .exn e => .exn e

/-- `read_data()` called with no argument: the engine is run on the
default query string. -/
def read_data_noarg (engine : String → PyResult (List Row)) : PyResult (List Row) :=
  read_data (engine read_data_default_query)

/-- `create_table(query)` (src/server.py, lines 110–143): the body is
identical to `read_data` — execute, then return the following row-fetch,
with `except sqlite3.Error: return []`. -/
def create_table (fetchRes : PyResult (List Row)) : PyResult (List Row) :=
  match fetchRes with
  | .val rows => .val rows
  | .exn (.sqliteError _) => .val []
  | .exn e => .exn e

/-! ## Reasoning Client (`src/langchain_client.py`) -/

/-- `check_server_connection` (src/langchain_client.py, lines 93–103):
`resp` is the outcome of the `httpx` GET against the `/sse` handshake
endpoint — a status code, or a raised exception.  The probe answers
`status_code == 200`, answers `True` on an `httpx.ReadTimeout`, and
`False` on any other exception. -/
def check_server_connection (resp : PyResult Nat) : Bool :=
  match resp with
  | .val status => status == 200
  | .exn .httpxReadTimeout => true
  | .exn _ => false

/-- The message of the `ConnectionError` raised by `initialize_agent`. -/
def MCP_UNREACHABLE_MSG : String := "MCP server not reachable"

/-- `initialize_agent` up to tool discovery (src/langchain_client.py,
lines 105–109): one call to `check_server_connection`; if it answers
`False`, raise `ConnectionError("MCP server not reachable")`, otherwise
proceed to `get_tools()`.  `probe k` is the outcome of the `k`-th probe
the client would make (the code makes exactly one, so only `probe 0` is
consulted); `discoverTools` stands for the `get_tools()` call. -/
def initialize_agent (probe : Nat → PyResult Nat)
    (discoverTools : Unit → List String) : PyResult (List String) :=
  if check_server_connection (probe 0) then .val (discoverTools ())
  else .exn (.other MCP_UNREACHABLE_MSG)

/-- `add_data_wrapper` (src/langchain_client.py, lines 111–115): return
the tool invocation's result; on any exception return the string
`"Add error: " + str(e)`.  The wrapper itself never raises.  (The
`create_table` tool entry, line 146, reuses this same coroutine.) -/
def add_data_wrapper (invokeRes : PyResult PyVal) : PyVal :=
  match invokeRes with
  | .val v => v
  | .exn e => .strV ("Add error: " ++ e.message)

/-- `[result[i:i+4] for i in range(0, len(result), 4)]`
(src/langchain_client.py, line 123): `range(0, n, 4)` has `⌈n/4⌉` values
`0, 4, 8, …`, and `result[i:i+4]` drops `i` elements then takes at
most 4. -/
def sliceRows (result : List PyVal) : List (List PyVal) :=
  (List.range ((result.length + 3) / 4)).map (fun k => (result.drop (4 * k)).take 4)

/-- `"| " + " | ".join(map(str, row)) + " |"` (src/langchain_client.py,
line 124). -/
def formatLine (row : List PyVal) : String :=
  "| " ++ String.intercalate " | " (row.map PyVal.toStr) ++ " |"

/-- `read_data_wrapper` (src/langchain_client.py, lines 117–127): invoke
the read tool; a falsy (empty) result yields `"No data found."`; otherwise
the flat result is cut into 4-value slices, each rendered by `formatLine`,
joined by newlines; on any exception return `"Read error: " + str(e)`. -/
def read_data_wrapper (invokeRes : PyResult (List PyVal)) : String :=
  match invokeRes with
  | .val result =>
      if result.isEmpty then "No data found."
      else String.intercalate "\n" ((sliceRows result).map formatLine)
  | .exn e => "Read error: " ++ e.message

/-- The `AgentExecutor` configuration (src/langchain_client.py,
lines 156–164). -/
structure AgentExecutorConfig where
  verbose : Bool
  handle_parsing_errors : Bool
  max_iterations : Nat
  early_stopping_force : Bool
  return_intermediate_steps : Bool
deriving DecidableEq, Repr

/-- The configuration the client builds: `verbose=True,
handle_parsing_errors=True, max_iterations=1,
early_stopping_method="force", return_intermediate_steps=True`. -/
def agent_executor_config : AgentExecutorConfig where
  verbose := true
  handle_parsing_errors := true
  max_iterations := 1
  early_stopping_force := true
  return_intermediate_steps := true

/-- One decision of the language model inside a reasoning step: finish
with a final answer, or select one tool action with its input. -/
inductive ModelDecision where
  | finish (answer : String)
  | act (tool : String) (input : String)
deriving DecidableEq, Repr

/-- Modelled from the spec: the agent runtime's bounded reasoning loop
(the `AgentExecutor` of the external agent framework — only its
configuration appears in src/langchain_client.py, lines 156–164).  Per
user turn the loop repeats up to `maxIter` steps: the model either
produces a final answer, terminating the turn, or selects exactly one
tool invocation and continues; when the iteration bound is reached the
forced early-stopping policy terminates the turn without any further
invocation.  Returns the number of tool invocations dispatched during
the turn and the final answer, if one was produced. -/
def runAgentLoop (maxIter : Nat) (decisions : List ModelDecision) :
    Nat × Option String :=
  match maxIter, decisions with
  | 0, _ => (0, none)
  | _ + 1, [] => (0, none)
  | _ + 1, .finish a :: _ => (0, some a)
  | n + 1, .act _ _ :: rest =>
      let r := runAgentLoop n rest
      (r.1 + 1, r.2)

/-- An entry of the conversation history: a `HumanMessage` or an
`AIMessage`. -/
inductive ChatMessage where
  | human (content : String)
  | ai (content : String)
deriving DecidableEq, Repr

/-- The value `agent_executor.ainvoke` settles to: a response dict
carrying an `"output"` key, or one without (or not a dict at all). -/
inductive AgentResponse where
  | withOutput (output : String)
  | withoutOutput
deriving DecidableEq, Repr

/-- `process_message` (src/langchain_client.py, lines 166–177): on a
response dict with an `"output"` key, `chat_history` is extended with the
human message then the agent message and the output is returned; a
response without an output returns a fixed string without touching the
history; a raised exception is caught (`except Exception`) and reported
as a string, the history untouched.  Returns the new history and the
user-visible reply. -/
def process_message (chat_history : List ChatMessage) (user_input : String)
    (invokeRes : PyResult AgentResponse) : List ChatMessage × String :=
  match invokeRes with
  | .val (.withOutput out) =>
      (chat_history ++ [ChatMessage.human user_input, ChatMessage.ai out], out)
  | .val .withoutOutput => (chat_history, "Agent could not determine a valid result.")
  | .exn e => (chat_history, "Processing error: " ++ e.message)

/-- Python `str.lower()` on one character (the inputs compared here are
ASCII: an upper-case letter is shifted into lower case, all else kept). -/
def pyLowerChar (c : Char) : Char :=
  if 'A' ≤ c ∧ c ≤ 'Z' then Char.ofNat (c.toNat + 32) else c

/-- Python `str.lower()` (the inputs compared here are ASCII). -/
def pyLower (s : String) : String := String.mk (s.data.map pyLowerChar)

/-- `interactive_chat` (src/langchain_client.py, lines 179–187), viewed
on a finite stream of input lines: each line whose lowercase form is not
`"exit"` is processed as a turn (passed to `process_message`); the first
line whose lowercase form is `"exit"` breaks the loop without being
processed.  Returns the lines processed as turns, in order. -/
def interactive_chat_turns : List String → List String
  | [] => []
  | s :: rest => if pyLower s = "exit" then [] else s :: interactive_chat_turns rest

/-- From the claim's words: a loop that continues, processing each line
as a turn, until the literal text `"exit"` is entered. -/
def claimed_chat_turns (inputs : List String) : List String :=
  inputs.takeWhile (fun s => s != "exit")

end MCP

namespace MCP

/-- C1: `add_data(query)` always returns a boolean to its caller — `true`
exactly when both the execution and the commit succeed, `false` when the
engine fails with a `sqlite3.Error` (malformed SQL, constraint violation) —
and never propagates an exception, given sqlite's contract that engine
failures are raised as `sqlite3.Error`. -/
theorem add_data_returns_bool_never_raises (e c : PyResult Unit)
    (he : e.sqliteOnly = true) (hc : c.sqliteOnly = true) :
    add_data e c = .val (e.ok && c.ok) := by
  cases e with
  | val a => cases c with
    | val b => rfl
    | exn ce => cases ce with
      | sqliteError m => rfl
      | httpxReadTimeout => simp [PyResult.sqliteOnly] at hc
      | other m => simp [PyResult.sqliteOnly] at hc
  | exn ee => cases ee with
    | sqliteError m => rfl
    | httpxReadTimeout => simp [PyResult.sqliteOnly] at he
    | other m => simp [PyResult.sqliteOnly] at he

theorem add_data_returns_bool_never_raises_witness :
    add_data (.val ()) (.exn (.sqliteError "near INSER: syntax error")) = .val false := by
  simpa using add_data_returns_bool_never_raises (.val ())
    (.exn (.sqliteError "near INSER: syntax error")) (by decide) (by decide)

/-- C2: `read_data(query)` returns the fetched row sequence on success and
the empty sequence on a `sqlite3.Error`, never raising (given sqlite's
contract); called with no argument it runs the default query
`SELECT * FROM people`, so if the engine answers that query with the rows
of the `people` table in store order, exactly those rows come back. -/
theorem read_data_rows_or_empty (f : PyResult (List Row))
    (engine : String → PyResult (List Row)) (st : List Row)
    (hf : f.sqliteOnly = true)
    (he : engine read_data_default_query = .val st) :
    (∀ rows, f = .val rows → read_data f = .val rows)
    ∧ (f.ok = false → read_data f = .val [])
    ∧ read_data_noarg engine = .val st := by
  refine ⟨?_, ?_, ?_⟩
  · intro rows hr; subst hr; rfl
  · intro hnot
    cases f with
    | val rows => simp [PyResult.ok] at hnot
    | exn ee => cases ee with
      | sqliteError m => rfl
      | httpxReadTimeout => simp [PyResult.sqliteOnly] at hf
      | other m => simp [PyResult.sqliteOnly] at hf
  · unfold read_data_noarg
    rw [he]
    rfl

theorem read_data_rows_or_empty_witness :
    read_data (.exn (.sqliteError "no such table: ghosts")) = .val []
    ∧ read_data_noarg (fun _ => .val [[PyVal.intV 1, PyVal.strV "John Doe",
        PyVal.intV 30, PyVal.strV "Engineer"]])
      = .val [[PyVal.intV 1, PyVal.strV "John Doe", PyVal.intV 30, PyVal.strV "Engineer"]] := by
  have h := read_data_rows_or_empty (.exn (.sqliteError "no such table: ghosts"))
    (fun _ => .val [[PyVal.intV 1, PyVal.strV "John Doe", PyVal.intV 30, PyVal.strV "Engineer"]])
    [[PyVal.intV 1, PyVal.strV "John Doe", PyVal.intV 30, PyVal.strV "Engineer"]]
    (by decide) rfl
  exact ⟨h.2.1 (by decide), h.2.2⟩

/-- C3: for a DDL statement creating a new table the engine's row-fetch is
empty, so `create_table` returns the empty sequence rather than an error;
on an execution failure (`sqlite3.Error`) it returns the empty sequence
as well. -/
theorem create_table_returns_empty (f : PyResult (List Row))
    (h : f = .val [] ∨ (∃ m, f = .exn (.sqliteError m))) :
    create_table f = .val [] := by
  rcases h with h | ⟨m, h⟩ <;> subst h <;> rfl

theorem create_table_returns_empty_witness :
    create_table (.val []) = .val []
    ∧ create_table (.exn (.sqliteError "table people already exists")) = .val [] :=
  ⟨create_table_returns_empty (.val []) (Or.inl rfl),
   create_table_returns_empty (.exn (.sqliteError "table people already exists"))
     (Or.inr ⟨"table people already exists", rfl⟩)⟩

/-- C10: the reachability probe reports the host reachable exactly when
the handshake endpoint answers HTTP 200 or the request raises a read
timeout; any other exception or status makes it report unreachable. -/
theorem probe_true_iff_200_or_read_timeout (resp : PyResult Nat) :
    check_server_connection resp = true
      ↔ (resp = .val 200 ∨ resp = .exn .httpxReadTimeout) := by
  cases resp with
  | val s => simp [check_server_connection]
  | exn e => cases e <;> simp [check_server_connection]

/-- C8: when the probe reports the host unreachable, `initialize_agent`
raises the `ConnectionError` — its outcome is the same whatever tool
discovery would return (discovery is never reached) — and the outcome
depends only on the first probe call (the probe is not retried). -/
theorem init_conn_failure_fatal (probe : Nat → PyResult Nat)
    (discoverTools : Unit → List String)
    (h : check_server_connection (probe 0) = false) :
    initialize_agent probe discoverTools = .exn (.other MCP_UNREACHABLE_MSG)
    ∧ (∀ d : Unit → List String, initialize_agent probe d = initialize_agent probe discoverTools)
    ∧ (∀ q : Nat → PyResult Nat, q 0 = probe 0 →
        initialize_agent q discoverTools = initialize_agent probe discoverTools) := by
  refine ⟨?_, ?_, ?_⟩
  · unfold initialize_agent
    rw [h]
    rfl
  · intro d
    unfold initialize_agent
    rw [h]
    rfl
  · intro q hq
    unfold initialize_agent
    rw [hq]

theorem init_conn_failure_fatal_witness :
    initialize_agent (fun _ => .exn (.other "connection refused")) (fun _ => [])
      = .exn (.other MCP_UNREACHABLE_MSG) :=
  (init_conn_failure_fatal (fun _ => .exn (.other "connection refused"))
    (fun _ => []) (by decide)).1

/-- C7: a raising tool invocation is recovered inside the dispatch
wrappers: the observation is replaced by `"Add error: <message>"` on the
insert/create path (the `create_table` tool reuses `add_data_wrapper`)
and by `"Read error: <message>"` on the query path — in both cases an
ordinary value is returned, never a propagated exception, so the turn
proceeds instead of aborting. -/
theorem wrapper_recovers_dispatch_failure (e : PyExn) :
    add_data_wrapper (.exn e) = .strV ("Add error: " ++ e.message)
    ∧ read_data_wrapper (.exn e) = "Read error: " ++ e.message :=
  ⟨rfl, rfl⟩

/-- The slices `result[i:i+4]`, `i = 0, 4, …, 4(n-1)`, concatenate to the
first `4n` elements of `result`. -/
theorem range_map_slice_join {α : Type} (n : Nat) (l : List α) :
    ((List.range n).map (fun k => (l.drop (4 * k)).take 4)).flatten = l.take (4 * n) := by
  induction n with
  | zero => simp
  | succ n ih =>
      rw [List.range_succ, List.map_append, List.flatten_append, ih]
      have h4 : 4 * (n + 1) = 4 * n + 4 := by ring
      rw [h4, List.take_add]
      simp

/-- The 4-value slices of `read_data_wrapper` concatenate back to the
whole flat result: they are consecutive and nothing is dropped. -/
theorem sliceRows_join (l : List PyVal) : (sliceRows l).flatten = l := by
  unfold sliceRows
  rw [range_map_slice_join]
  exact List.take_of_length_le (by omega)

/-- Every slice holds at most four values. -/
theorem sliceRows_row_le_four (l : List PyVal) (row : List PyVal)
    (h : row ∈ sliceRows l) : row.length ≤ 4 := by
  unfold sliceRows at h
  rcases List.mem_map.1 h with ⟨k, _, rfl⟩
  rw [List.length_take]
  omega

/-- When the flat result's length is a multiple of four, every slice
holds exactly four values. -/
theorem sliceRows_row_eq_four (l : List PyVal) (h4 : l.length % 4 = 0)
    (row : List PyVal) (h : row ∈ sliceRows l) : row.length = 4 := by
  unfold sliceRows at h
  rcases List.mem_map.1 h with ⟨k, hk, rfl⟩
  rw [List.mem_range] at hk
  rw [List.length_take, List.length_drop]
  omega

/-- C6 counterexample: on the six-value result
`[1, "Alice", 30, "Engineer", 2, "Bob"]` the wrapper's second row holds
two values, not four, and each line carries a leading `"| "` and a
trailing `" |"` around the `" | "`-joined values — so the output line is
not the four values joined by `" | "` alone. -/
theorem read_wrapper_format_counterexample :
    read_data_wrapper (.val [PyVal.intV 1, PyVal.strV "Alice", PyVal.intV 30,
        PyVal.strV "Engineer", PyVal.intV 2, PyVal.strV "Bob"])
      = "| 1 | Alice | 30 | Engineer |\n| 2 | Bob |"
    ∧ (sliceRows [PyVal.intV 1, PyVal.strV "Alice", PyVal.intV 30,
        PyVal.strV "Engineer", PyVal.intV 2, PyVal.strV "Bob"]).map List.length ≠ [4, 4]
    ∧ "| 1 | Alice | 30 | Engineer |"
        ≠ String.intercalate " | " ["1", "Alice", "30", "Engineer"] := by
  refine ⟨by decide, by decide, by decide⟩

/-- C6 (amended): for every non-empty read result, the wrapper renders
one line per consecutive slice of at most four values (exactly four when
the result length is a multiple of four, the final slice holding the
remainder otherwise; the slices concatenate back to the result), each
line being the slice's values joined by `" | "` and enclosed between a
leading `"| "` and a trailing `" |"`, lines joined by newlines. -/
theorem read_wrapper_table_shape (result : List PyVal) (h : result ≠ []) :
    read_data_wrapper (.val result)
      = String.intercalate "\n" ((sliceRows result).map (fun row =>
          "| " ++ String.intercalate " | " (row.map PyVal.toStr) ++ " |"))
    ∧ (sliceRows result).flatten = result
    ∧ (∀ row ∈ sliceRows result, row.length ≤ 4)
    ∧ (result.length % 4 = 0 → ∀ row ∈ sliceRows result, row.length = 4) := by
  refine ⟨?_, sliceRows_join result, fun row hr => sliceRows_row_le_four result row hr,
    fun h4 row hr => sliceRows_row_eq_four result h4 row hr⟩
  cases result with
  | nil => exact absurd rfl h
  | cons a t => rfl

theorem read_wrapper_table_shape_witness :
    read_data_wrapper (.val [PyVal.intV 1, PyVal.strV "John Doe", PyVal.intV 30,
        PyVal.strV "Engineer"])
      = "| 1 | John Doe | 30 | Engineer |" := by
  have h := read_wrapper_table_shape
    [PyVal.intV 1, PyVal.strV "John Doe", PyVal.intV 30, PyVal.strV "Engineer"] (by decide)
  exact h.1.trans (by decide)

/-- The reasoning loop never dispatches more tool invocations than its
iteration bound. -/
theorem runAgentLoop_invocations_le (m : Nat) (d : List ModelDecision) :
    (runAgentLoop m d).1 ≤ m := by
  induction m generalizing d with
  | zero => simp [runAgentLoop]
  | succ n ih =>
      cases d with
      | nil => simp [runAgentLoop]
      | cons s rest =>
          cases s with
          | finish a => simp [runAgentLoop]
          | act t i =>
              have hr := ih rest
              simp only [runAgentLoop]
              omega

/-- C4: under the executor configuration of the client
(`max_iterations = 1` with forced early stopping), at most one tool
invocation is dispatched before a user turn terminates, whatever the
model decides at each step. -/
theorem at_most_one_tool_invocation_per_turn (decisions : List ModelDecision) :
    (runAgentLoop agent_executor_config.max_iterations decisions).1 ≤ 1 :=
  runAgentLoop_invocations_le agent_executor_config.max_iterations decisions

/-- C5: a turn completing with an output appends exactly two entries to
the conversation history — the human message holding the user input
followed by the agent message holding the output, so the length grows by
two — while a turn whose invocation raises, or whose response carries no
output, leaves the history unchanged. -/
theorem history_grows_by_two_or_zero (h : List ChatMessage) (u out : String) (e : PyExn) :
    (process_message h u (.val (.withOutput out))).1
        = h ++ [ChatMessage.human u, ChatMessage.ai out]
    ∧ ((process_message h u (.val (.withOutput out))).1).length = h.length + 2
    ∧ (process_message h u (.val .withoutOutput)).1 = h
    ∧ (process_message h u (.exn e)).1 = h := by
  refine ⟨rfl, ?_, rfl, rfl⟩
  simp [process_message]

/-- C9 counterexample: on the input lines `["EXIT", "hello"]` the loop
terminates at `"EXIT"` — a line that is not the literal text `"exit"` —
processing no line as a turn, while a loop continuing until the literal
`"exit"` is entered would have processed both lines. -/
theorem interactive_chat_literal_exit_counterexample :
    interactive_chat_turns ["EXIT", "hello"] = []
    ∧ claimed_chat_turns ["EXIT", "hello"] = ["EXIT", "hello"]
    ∧ ("EXIT" : String) ≠ "exit" := by
  refine ⟨by decide, by decide, by decide⟩

/-- C9 (amended): the interactive loop reads free-text lines from
standard input, one per turn, and processes each in order until the first
line equal to `exit` up to letter case (its lowercase form is the literal
`exit`); that terminating line is not processed as a turn. -/
theorem interactive_chat_stops_on_case_insensitive_exit (inputs : List String) :
    interactive_chat_turns inputs
      = inputs.takeWhile (fun s => pyLower s != "exit") := by
  induction inputs with
  | nil => rfl
  | cons s rest ih =>
      by_cases hs : pyLower s = "exit"
      · simp [interactive_chat_turns, List.takeWhile_cons, hs]
      · simp [interactive_chat_turns, List.takeWhile_cons, hs, ih]

end MCP
